import Mathlib

/-!
Verification of the AgriMitra backend core logic
(`backend/services/langchain_service.py`): the Response Structurer
(`_parse_image_analysis`), the Conversation Context Builder
(the message-assembly part of `process_chat_message`), and the
Suggestion Heuristic (`_get_suggested_actions`), shallowly embedded
as executable Lean definitions.

Conventions: Python strings are `String` (lists of characters);
Python's substring test `needle in haystack` is `List.IsInfix` on
character data; Python floats arising as `int / 100` are modelled
exactly as rationals; the regular-expression searches used for
confidence extraction are compiled by hand into deterministic
matchers (each of the four patterns only uses character classes
that are pairwise disjoint at every choice point, so greedy
maximal-munch matching agrees with backtracking regex semantics),
tried at every start position left to right exactly as `re.search`
does.
-/

namespace AgriMitra

/-- Python `\s` / `str.strip` whitespace characters (ASCII range). -/
def isPySpace (c : Char) : Bool :=
  c = ' ' || c = '\t' || c = '\n' || c = '\r' || c = '\x0b' || c = '\x0c'

/-- Python `str.lower()` (ASCII; all vocabulary in the program is ASCII). -/
def lowerStr (s : String) : String :=
  ⟨s.data.map Char.toLower⟩

/-- Python `str.strip()`: drop leading and trailing whitespace. -/
def stripStr (s : String) : String :=
  ⟨((s.data.dropWhile isPySpace).reverse.dropWhile isPySpace).reverse⟩

/-- Python substring test `needle in haystack`. -/
def strContains (hay needle : String) : Prop :=
  needle.data <:+: hay.data

instance (hay needle : String) : Decidable (strContains hay needle) :=
  inferInstanceAs (Decidable (needle.data <:+: hay.data))

/-- Boolean form of the substring test, as used inside the parser. -/
def containsStr (hay needle : String) : Bool :=
  decide (strContains hay needle)

/-- Python `any(word in line.lower() for word in words)`. -/
def hasAnyWord (line : String) (words : List String) : Bool :=
  words.any (fun w => containsStr (lowerStr line) w)

/-- Python `text.split('\n')` on character data. -/
def splitNl : List Char → List (List Char)
  | [] => [[]]
  | c :: cs =>
    let r := splitNl cs
    if c = '\n' then [] :: r
    else
      match r with
      | p :: ps => (c :: p) :: ps
      | [] => [[c]]

/-- Python `str.title()` helper: the boolean records whether the
previous character was a cased (alphabetic) character. -/
def titleCaseAux : Bool → List Char → List Char
  | _, [] => []
  | prevCased, c :: cs =>
    let cased := c.isAlpha
    let c2 := if cased then (if prevCased then c.toLower else c.toUpper) else c
    c2 :: titleCaseAux cased cs

/-- Python `str.title()` (ASCII). -/
def titleCase (s : String) : String :=
  ⟨titleCaseAux false s.data⟩

/-- The fixed disease/pest vocabulary of `_parse_image_analysis`,
in source order (the scan priority order). -/
def diseases : List String :=
  ["blight", "wilt", "rust", "mildew", "mosaic", "rot", "canker",
   "anthracnose", "leaf spot", "powdery mildew", "downy mildew",
   "bacterial", "fungal", "viral", "aphid", "thrips", "whitefly"]

/-- The disease scan: first vocabulary term (in list order) contained
in the lower-cased text wins and is title-cased; no match gives none. -/
def findDiseaseAux (lowText : String) : List String → Option String
  | [] => none
  | d :: ds =>
    if strContains lowText d then some (titleCase d)
    else findDiseaseAux lowText ds

/-- Maximal run of decimal digits, accumulating the denoted number. -/
def digitsAux : Nat → List Char → Nat × List Char
  | acc, [] => (acc, [])
  | acc, c :: cs =>
    if c.isDigit then digitsAux (acc * 10 + (c.toNat - 48)) cs
    else (acc, c :: cs)

/-- Regex `(\d+)`: at least one digit, maximal munch, value captured. -/
def takeDigits : List Char → Option (Nat × List Char)
  | [] => none
  | c :: cs =>
    if c.isDigit then some (digitsAux (c.toNat - 48) cs) else none

/-- Case-insensitive literal match (literal given lower-case),
returning the rest of the input on success. -/
def matchLower : List Char → List Char → Option (List Char)
  | [], cs => some cs
  | _ :: _, [] => none
  | l :: ls, c :: cs => if c.toLower = l then matchLower ls cs else none

/-- Characters of the regex class `[:\s]`. -/
def isColonSpace (c : Char) : Bool :=
  c = ':' || isPySpace c

/-- Pattern 1, `confidence[:\s]*(\d+)%`, anchored at the given position. -/
def matchP1At (cs : List Char) : Option Nat :=
  match matchLower "confidence".data cs with
  | none => none
  | some cs1 =>
    match takeDigits (cs1.dropWhile isColonSpace) with
    | none => none
    | some (n, cs2) =>
      match cs2 with
      | '%' :: _ => some n
      | _ => none

/-- Pattern 2, `(\d+)%\s*confidence`, anchored at the given position. -/
def matchP2At (cs : List Char) : Option Nat :=
  match takeDigits cs with
  | none => none
  | some (n, cs1) =>
    match cs1 with
    | '%' :: cs2 =>
      match matchLower "confidence".data (cs2.dropWhile isPySpace) with
      | some _ => some n
      | none => none
    | _ => none

/-- Pattern 3, `confidence[:\s]*(\d+)`, anchored at the given position. -/
def matchP3At (cs : List Char) : Option Nat :=
  match matchLower "confidence".data cs with
  | none => none
  | some cs1 =>
    match takeDigits (cs1.dropWhile isColonSpace) with
    | none => none
    | some (n, _) => some n

/-- Pattern 4, `(\d+)\s*percent`, anchored at the given position. -/
def matchP4At (cs : List Char) : Option Nat :=
  match takeDigits cs with
  | none => none
  | some (n, cs1) =>
    match matchLower "percent".data (cs1.dropWhile isPySpace) with
    | some _ => some n
    | none => none

/-- `re.search`: try the anchored matcher at every start position,
left to right; first success wins. -/
def searchAux (m : List Char → Option Nat) : List Char → Option Nat
  | [] => m []
  | c :: cs =>
    match m (c :: cs) with
    | some n => some n
    | none => searchAux m cs

/-- The four confidence patterns in their fixed priority order. -/
def confidencePatterns : List (List Char → Option Nat) :=
  [matchP1At, matchP2At, matchP3At, matchP4At]

/-- Confidence extraction: first pattern (in priority order) whose
search succeeds anywhere yields `captured / 100`. -/
def extractConfidence (text : String) : Option ℚ :=
  (confidencePatterns.findSome? (fun m => searchAux m text.data)).map
    (fun n : Nat => (n : ℚ) / 100)

/-- Action verbs tested against each line. -/
def actionVerbs : List String :=
  ["spray", "apply", "use", "treat", "remove", "cut", "water",
   "fertilize", "prune", "harvest", "isolate"]

/-- Remedy-indicator terms tested in the action-verb branch. -/
def remedyTerms : List String :=
  ["neem", "organic", "local", "traditional", "natural",
   "turmeric", "garlic", "soap", "ash"]

/-- Remedy-indicator terms tested in the numbered-list branch
(note: a strict subset of `remedyTerms` in the source). -/
def numberedRemedyTerms : List String :=
  ["neem", "organic", "local"]

/-- Regex `re.match(r'^\d+\.', line)`: one or more digits then a dot,
anchored at the start. -/
def isNumbered (line : String) : Bool :=
  match takeDigits line.data with
  | some (_, '.' :: _) => true
  | _ => false

/-- Classification of one (already stripped) line. -/
inductive LineClass where
  | action
  | remedy
  | skip
deriving DecidableEq, Repr

/-- The per-line classification of `_parse_image_analysis`:
empty lines are skipped; a line with an action verb is a remedy when
it also has a remedy-indicator term, otherwise an action; failing
that, a numbered line longer than 10 characters is a remedy when it
has one of `numberedRemedyTerms`, otherwise an action; everything
else is ignored. -/
def classifyLine (line : String) : LineClass :=
  if line = "" then LineClass.skip
  else if hasAnyWord line actionVerbs = true then
    (if hasAnyWord line remedyTerms = true then LineClass.remedy
     else LineClass.action)
  else if isNumbered line = true ∧ line.length > 10 then
    (if hasAnyWord line numberedRemedyTerms = true then LineClass.remedy
     else LineClass.action)
  else LineClass.skip

/-- The collection loop: strip each line, classify it, and append it
to the action or remedy list, preserving encounter order.  (Python
appends `line.strip()` where `line` is already stripped;
`stripStr_idem` below shows the second strip is the identity.) -/
def collectLines : List String → List String × List String
  | [] => ([], [])
  | l :: ls =>
    let line := stripStr l
    let rest := collectLines ls
    match classifyLine line with
    | LineClass.action => (line :: rest.1, rest.2)
    | LineClass.remedy => (rest.1, line :: rest.2)
    | LineClass.skip => rest

/-- The structured result of `_parse_image_analysis`. -/
structure AnalysisResult where
  analysis : String
  disease_detected : Option String
  confidence_score : Option ℚ
  recommended_actions : List String
  local_remedies : List String
deriving DecidableEq, Repr

/-- `_parse_image_analysis`, happy path (the body of the `try`). -/
def parseImageAnalysis (response_text : String) : AnalysisResult :=
  let response_lower := lowerStr response_text
  let pair := collectLines ((splitNl response_text.data).map (fun l => String.mk l))
  { analysis := response_text
    disease_detected := findDiseaseAux response_lower diseases
    confidence_score := extractConfidence response_text
    recommended_actions := pair.1.take 5
    local_remedies := pair.2.take 3 }

/-- `_parse_image_analysis`, exception path (the `except` branch):
raw text preserved, every derived field absent/empty. -/
def parseImageAnalysisFallback (response_text : String) : AnalysisResult :=
  { analysis := response_text
    disease_detected := none
    confidence_score := none
    recommended_actions := []
    local_remedies := [] }

/-- Message roles of the LangChain message classes used by the
context builder (`SystemMessage` / `HumanMessage` / `AIMessage`). -/
inductive Role where
  | system
  | user
  | assistant
deriving DecidableEq, Repr

/-- One message of the assembled conversation context. -/
structure ChatMessage where
  role : Role
  content : String
deriving DecidableEq, Repr

/-- One caller-supplied history entry (`{"role": ..., "content": ...}`). -/
structure HistEntry where
  role : String
  content : String
deriving DecidableEq, Repr

/-- The fixed system instruction text (`self.system_prompt`). -/
def systemPrompt : String :=
  "You are AgriMitra, an expert agricultural assistant specifically designed to help farmers in Karnataka, India. \n\n        Your expertise includes:\n        - Crop disease diagnosis and treatment\n        - Pest identification and management\n        - Market price analysis and selling advice\n        - Government agricultural schemes and subsidies\n        - Farming best practices for the Karnataka region\n        - Local and affordable remedy suggestions\n\n        Guidelines:\n        1. Always provide practical, actionable advice\n        2. Suggest locally available and affordable solutions\n        3. Consider the farmer's economic constraints\n        4. Be empathetic and understanding of rural challenges\n        5. Use simple, clear language\n        6. Provide step-by-step instructions when needed\n        7. Include preventive measures\n        8. Support multiple languages (English and Kannada)\n\n        When analyzing crop images:\n        - Identify the crop type first\n        - Look for signs of disease, pest damage, or nutrient deficiency\n        - Provide confidence levels in your diagnosis\n        - Suggest immediate and long-term solutions\n        - Recommend local treatment options\n        - Consider the stage of crop growth\n        - Mention weather conditions that might have contributed\n        "

/-- The language directive prepended for Kannada requests. -/
def knDirective : String :=
  "[Please respond in Kannada language] "

/-- Python `history[-5:]`: the trailing window of at most `n` entries. -/
def takeLast (n : Nat) (l : List HistEntry) : List HistEntry :=
  l.drop (l.length - n)

/-- Conversion of one history entry: role `"user"` becomes a
`HumanMessage`, every other role becomes an `AIMessage`. -/
def histToMsg (m : HistEntry) : ChatMessage :=
  if m.role = "user" then ⟨Role.user, m.content⟩
  else ⟨Role.assistant, m.content⟩

/-- The message-assembly part of `process_chat_message` (lines 95-108):
system prompt, the last-5 history window, then the current message as
the final user message, with the Kannada directive when the language
is `"kn"`. -/
def buildChatMessages (message : String) (history : List HistEntry)
    (language : String) : List ChatMessage :=
  let msgs := ChatMessage.mk Role.system systemPrompt
    :: (takeLast 5 history).map histToMsg
  let message2 := if language = "kn" then knDirective ++ message else message
  msgs ++ [ChatMessage.mk Role.user message2]

/-- Keyword set for the disease/pest suggestion branch. -/
def diseaseKeywords : List String :=
  ["disease", "spot", "yellow", "brown", "pest", "bug", "insect"]

/-- Keyword set for the market suggestion branch. -/
def marketKeywords : List String :=
  ["price", "sell", "market", "mandi"]

/-- Keyword set for the scheme/subsidy suggestion branch. -/
def schemeKeywords : List String :=
  ["subsidy", "scheme", "government", "loan"]

/-- Keyword set for the weather suggestion branch. -/
def weatherKeywords : List String :=
  ["weather", "rain", "drought", "irrigation"]

/-- Fixed suggestions of the disease/pest branch. -/
def diseaseSuggestions : List String :=
  ["Upload an image of the affected plant",
   "Check market prices for your crop",
   "Look for organic treatment options"]

/-- Fixed suggestions of the market branch. -/
def marketSuggestions : List String :=
  ["Check current market prices",
   "Find nearby mandis",
   "Look for government schemes"]

/-- Fixed suggestions of the scheme/subsidy branch. -/
def schemeSuggestions : List String :=
  ["Search government schemes",
   "Check eligibility criteria",
   "Find application procedures"]

/-- Fixed suggestions of the weather branch. -/
def weatherSuggestions : List String :=
  ["Check weather forecasts",
   "Look for drought-resistant varieties",
   "Explore irrigation subsidies"]

/-- Generic default suggestions. -/
def defaultSuggestions : List String :=
  ["Upload crop images for analysis",
   "Check market prices",
   "Explore government schemes"]

/-- `_get_suggested_actions`: lower-case the message, test the four
keyword sets in priority order, return the fixed list of the first
matching set (or the default), capped at 3. -/
def getSuggestedActions (message : String) : List String :=
  (if hasAnyWord message diseaseKeywords = true then diseaseSuggestions
   else if hasAnyWord message marketKeywords = true then marketSuggestions
   else if hasAnyWord message schemeKeywords = true then schemeSuggestions
   else if hasAnyWord message weatherKeywords = true then weatherSuggestions
   else defaultSuggestions).take 3

/-! ### Helper lemmas -/

/-- Removing a trailing run cannot create a leading run: if a list has
no leading `p`-run, neither does its `rdropWhile`. -/
lemma dropWhile_rdropWhile {α : Type} (p : α → Bool) (x : List α)
    (hx : x.dropWhile p = x) :
    (x.rdropWhile p).dropWhile p = x.rdropWhile p := by
  rw [List.dropWhile_eq_self_iff] at hx ⊢
  intro h1
  have hpre := List.rdropWhile_prefix p x
  have h0 : 0 < x.length := lt_of_lt_of_le h1 hpre.length_le
  have heq : (x.rdropWhile p).get ⟨0, h1⟩ = x.get ⟨0, h0⟩ := by
    simpa using hpre.getElem h1
  rw [heq]
  exact hx h0

/-- Python `str.strip()` is idempotent (so the source's
`actions.append(line.strip())` on an already-stripped `line` appends
`line` itself). -/
lemma stripStr_idem (s : String) : stripStr (stripStr s) = stripStr s := by
  show String.mk _ = String.mk _
  simp only [stripStr]
  have hrd : ∀ m : List Char,
      ((m.reverse.dropWhile isPySpace).reverse : List Char)
        = m.rdropWhile isPySpace := fun m => rfl
  simp only [hrd]
  rw [dropWhile_rdropWhile isPySpace _ (List.dropWhile_idempotent _ _),
    List.rdropWhile_idempotent]

/-- Every string in the collected action list classifies as an action. -/
lemma mem_collect_fst {ls : List String} {s : String}
    (h : s ∈ (collectLines ls).1) : classifyLine s = LineClass.action := by
  induction ls with
  | nil => simp [collectLines] at h
  | cons l ls ih =>
    simp only [collectLines] at h
    rcases hc : classifyLine (stripStr l) with _ | _ | _ <;> rw [hc] at h
    · rcases List.mem_cons.mp h with h1 | h1
      · rw [← h1] at hc
        exact hc
      · exact ih h1
    · exact ih h
    · exact ih h

/-- Every string in the collected remedy list classifies as a remedy. -/
lemma mem_collect_snd {ls : List String} {s : String}
    (h : s ∈ (collectLines ls).2) : classifyLine s = LineClass.remedy := by
  induction ls with
  | nil => simp [collectLines] at h
  | cons l ls ih =>
    simp only [collectLines] at h
    rcases hc : classifyLine (stripStr l) with _ | _ | _ <;> rw [hc] at h
    · exact ih h
    · rcases List.mem_cons.mp h with h1 | h1
      · rw [← h1] at hc
        exact hc
      · exact ih h1
    · exact ih h

/-! ### Claims -/

/-- C1: the Response Structurer is a total function whose result always
carries the input text unmodified in the `analysis` field, on the
happy path as well as on the exception path, and on the exception path
every derived field is absent/empty. -/
theorem parse_preserves_raw_text (text : String) :
    (parseImageAnalysis text).analysis = text
    ∧ (parseImageAnalysisFallback text).analysis = text
    ∧ (parseImageAnalysisFallback text).disease_detected = none
    ∧ (parseImageAnalysisFallback text).confidence_score = none
    ∧ (parseImageAnalysisFallback text).recommended_actions = []
    ∧ (parseImageAnalysisFallback text).local_remedies = [] :=
  ⟨rfl, rfl, rfl, rfl, rfl, rfl⟩

/-- C3: for every input text, no line ends up in both
`recommended_actions` and `local_remedies` (remedy takes precedence
when a line has both an action verb and a remedy-indicator term), and
the two lists are capped at 5 and 3 entries respectively. -/
theorem actions_remedies_disjoint_bounded (text : String) :
    (∀ s, s ∈ (parseImageAnalysis text).recommended_actions →
      s ∉ (parseImageAnalysis text).local_remedies)
    ∧ (parseImageAnalysis text).recommended_actions.length ≤ 5
    ∧ (parseImageAnalysis text).local_remedies.length ≤ 3
    ∧ (∀ line, hasAnyWord line actionVerbs = true →
        hasAnyWord line remedyTerms = true →
        classifyLine line = LineClass.remedy) := by
  refine ⟨?_, ?_, ?_, ?_⟩
  · intro s hs hr
    simp only [parseImageAnalysis] at hs hr
    have ha : classifyLine s = LineClass.action :=
      mem_collect_fst (List.take_subset _ _ hs)
    have hb : classifyLine s = LineClass.remedy :=
      mem_collect_snd (List.take_subset _ _ hr)
    rw [ha] at hb
    exact LineClass.noConfusion hb
  · simp only [parseImageAnalysis, List.length_take]
    exact min_le_left _ _
  · simp only [parseImageAnalysis, List.length_take]
    exact min_le_left _ _
  · intro line h1 h2
    by_cases hl : line = ""
    · rw [hl] at h1
      exact absurd h1 (by decide)
    · simp [classifyLine, hl, h1, h2]

/-- Witness for C3 at concrete inputs: the action line
`"Remove affected leaves"` is not among the remedies, and the spec's
sample line `"Apply neem oil spray twice a week"` is a remedy. -/
theorem actions_remedies_disjoint_bounded_witness :
    "Remove affected leaves" ∉
      (parseImageAnalysis "Remove affected leaves").local_remedies
    ∧ classifyLine "Apply neem oil spray twice a week" = LineClass.remedy :=
  ⟨(actions_remedies_disjoint_bounded "Remove affected leaves").1 _ (by decide),
   (actions_remedies_disjoint_bounded "").2.2.2 _ (by decide) (by decide)⟩

/-- Indexing that yields a value implies the index is in range. -/
lemma getElem?_some_lt {α : Type} (l : List α) (n : Nat) (a : α)
    (h : l[n]? = some a) : n < l.length := by
  induction l generalizing n with
  | nil => simp at h
  | cons b l ih =>
    cases n with
    | zero => simp
    | succ m =>
      rw [List.getElem?_cons_succ] at h
      exact Nat.succ_lt_succ (ih m h)

/-- The disease scan returns nothing exactly when no vocabulary term
occurs in the text. -/
lemma findDiseaseAux_eq_none {t : String} {L : List String} :
    findDiseaseAux t L = none ↔ ∀ d ∈ L, ¬ strContains t d := by
  induction L with
  | nil => simp [findDiseaseAux]
  | cons d ds ih =>
    by_cases h : strContains t d
    · simp [findDiseaseAux, h]
    · simp [findDiseaseAux, h, ih]

/-- A successful disease scan returns the title-cased first term, in
list-priority order, that occurs in the text: all earlier terms are
absent from the text. -/
lemma findDiseaseAux_eq_some {t : String} {L : List String} {s : String}
    (h : findDiseaseAux t L = some s) :
    ∃ (i : Nat) (d : String), L[i]? = some d ∧ strContains t d ∧ s = titleCase d ∧
      ∀ (j : Nat) (e : String), j < i → L[j]? = some e → ¬ strContains t e := by
  induction L with
  | nil => simp [findDiseaseAux] at h
  | cons d ds ih =>
    by_cases hc : strContains t d
    · refine ⟨0, d, by simp, hc, ?_, ?_⟩
      · simp [findDiseaseAux, hc] at h
        exact h.symm
      · intro j e hj _
        exact absurd hj (Nat.not_lt_zero j)
    · simp only [findDiseaseAux, if_neg hc] at h
      obtain ⟨i, d2, hget, hcont, hs, hmin⟩ := ih h
      refine ⟨i + 1, d2, ?_, hcont, hs, ?_⟩
      · rw [List.getElem?_cons_succ]
        exact hget
      · intro j e hj hje
        cases j with
        | zero =>
          rw [List.getElem?_cons_zero] at hje
          cases hje
          exact hc
        | succ k =>
          rw [List.getElem?_cons_succ] at hje
          exact hmin k e (Nat.lt_of_succ_lt_succ hj) hje

/-- Conversely, the first contained term (in list-priority order)
forces a successful scan returning its title-cased form. -/
lemma findDiseaseAux_first {t : String} {L : List String} {i : Nat}
    {d : String} (hget : L[i]? = some d) (hc : strContains t d)
    (hmin : ∀ (j : Nat) (e : String), j < i → L[j]? = some e →
      ¬ strContains t e) :
    findDiseaseAux t L = some (titleCase d) := by
  induction L generalizing i with
  | nil => simp at hget
  | cons a as ih =>
    cases i with
    | zero =>
      have had : d = a := by
        rw [List.getElem?_cons_zero] at hget
        exact (Option.some_inj.mp hget).symm
      subst had
      simp [findDiseaseAux, hc]
    | succ k =>
      rw [List.getElem?_cons_succ] at hget
      have hna : ¬ strContains t a :=
        hmin 0 a (Nat.succ_pos k) (by rw [List.getElem?_cons_zero])
      simp only [findDiseaseAux, if_neg hna]
      exact ih hget (fun j e hj hje =>
        hmin (j + 1) e (Nat.succ_lt_succ hj)
          (by rw [List.getElem?_cons_succ]; exact hje))

/-- C5: the disease scan checks the lower-cased text against the fixed
vocabulary in list-priority order (not positional order):
`disease_detected` is absent exactly when no vocabulary term occurs in
the text; whenever a term is contained, the first one in priority
order (all earlier terms absent) wins and is stored title-cased; and
any detected label arises that way. -/
theorem disease_detection_priority_scan (text : String) :
    ((parseImageAnalysis text).disease_detected = none ↔
      ∀ d ∈ diseases, ¬ strContains (lowerStr text) d)
    ∧ (∀ (i : Nat) (d : String), diseases[i]? = some d →
        strContains (lowerStr text) d →
        (∀ (j : Nat) (e : String), j < i → diseases[j]? = some e →
          ¬ strContains (lowerStr text) e) →
        (parseImageAnalysis text).disease_detected = some (titleCase d))
    ∧ (∀ s, (parseImageAnalysis text).disease_detected = some s →
        ∃ (i : Nat) (d : String), diseases[i]? = some d ∧
          strContains (lowerStr text) d ∧ s = titleCase d ∧
          ∀ (j : Nat) (e : String), j < i → diseases[j]? = some e →
            ¬ strContains (lowerStr text) e) := by
  refine ⟨?_, ?_, ?_⟩
  · simp only [parseImageAnalysis]
    exact findDiseaseAux_eq_none
  · intro i d hget hc hmin
    simp only [parseImageAnalysis]
    exact findDiseaseAux_first hget hc hmin
  · intro s hs
    simp only [parseImageAnalysis] at hs
    exact findDiseaseAux_eq_some hs

/-- Witness for C5: a text with no vocabulary term yields no detected
disease, and `"severe rust and mildew"` yields `"Rust"` — the
priority-first contained term (index 2), title-cased, even though
`"mildew"` also occurs. -/
theorem disease_detection_priority_scan_witness :
    (parseImageAnalysis "healthy crop with no issues").disease_detected
      = none
    ∧ (parseImageAnalysis "severe rust and mildew").disease_detected
      = some "Rust" :=
  ⟨(disease_detection_priority_scan "healthy crop with no issues").1.mpr
    (by decide),
   (disease_detection_priority_scan "severe rust and mildew").2.1 2 "rust"
    (by decide) (by decide)
    (by
      intro j e hj hje
      interval_cases j
      · rw [show diseases[0]? = some "blight" by decide] at hje
        cases hje
        decide
      · rw [show diseases[1]? = some "wilt" by decide] at hje
        cases hje
        decide)⟩

/-- C10: the vocabulary entries `"powdery mildew"` and `"downy mildew"`
are unreachable as results: any text containing either also contains
`"mildew"`, which precedes both in the priority list, so
`disease_detected` is never `"Powdery Mildew"` or `"Downy Mildew"`. -/
theorem unreachable_compound_mildew_labels (text : String) :
    (parseImageAnalysis text).disease_detected ≠ some "Powdery Mildew"
    ∧ (parseImageAnalysis text).disease_detected ≠ some "Downy Mildew" := by
  constructor
  · intro h
    simp only [parseImageAnalysis] at h
    obtain ⟨i, d, hget, hcont, hs, hmin⟩ := findDiseaseAux_eq_some h
    have hlt : i < diseases.length := getElem?_some_lt _ _ _ hget
    have hidx : ∀ k, k < diseases.length →
        (diseases[k]?).map titleCase = some "Powdery Mildew" → k = 9 := by
      decide
    have hi9 : i = 9 := hidx i hlt (by simp [hget, ← hs])
    subst hi9
    have hd : d = "powdery mildew" := by
      have h9 : diseases[9]? = some "powdery mildew" := by decide
      rw [h9] at hget
      exact (Option.some_inj.mp hget).symm
    have hm : ¬ strContains (lowerStr text) "mildew" :=
      hmin 3 "mildew" (by decide) (by decide)
    apply hm
    have hsub : ("mildew".data <:+: "powdery mildew".data) := by decide
    exact hsub.trans (hd ▸ hcont)
  · intro h
    simp only [parseImageAnalysis] at h
    obtain ⟨i, d, hget, hcont, hs, hmin⟩ := findDiseaseAux_eq_some h
    have hlt : i < diseases.length := getElem?_some_lt _ _ _ hget
    have hidx : ∀ k, k < diseases.length →
        (diseases[k]?).map titleCase = some "Downy Mildew" → k = 10 := by
      decide
    have hi10 : i = 10 := hidx i hlt (by simp [hget, ← hs])
    subst hi10
    have hd : d = "downy mildew" := by
      have h10 : diseases[10]? = some "downy mildew" := by decide
      rw [h10] at hget
      exact (Option.some_inj.mp hget).symm
    have hm : ¬ strContains (lowerStr text) "mildew" :=
      hmin 3 "mildew" (by decide) (by decide)
    apply hm
    have hsub : ("mildew".data <:+: "downy mildew".data) := by decide
    exact hsub.trans (hd ▸ hcont)

/-- Witness for C10 at a text that literally mentions powdery mildew:
even there the detected label is not a compound mildew label (the scan
stops at `"Mildew"`). -/
theorem unreachable_compound_mildew_labels_witness :
    (parseImageAnalysis "powdery mildew on the leaves").disease_detected
      ≠ some "Powdery Mildew"
    ∧ (parseImageAnalysis "powdery mildew on the leaves").disease_detected
      ≠ some "Downy Mildew" :=
  unreachable_compound_mildew_labels "powdery mildew on the leaves"

/-- C2: confidence extraction tries the four patterns in their fixed
priority order; the first pattern whose search succeeds anywhere in
the text determines the score (captured integer over 100) and later
patterns are never consulted; no pattern matching gives no score.
Concretely, `"confidence: 82%"` scores 0.82 and
`"90 percent confidence"` (where the three earlier patterns fail)
scores 0.90 via the fourth pattern. -/
theorem confidence_first_pattern_priority (text : String) :
    (∀ n : Nat, searchAux matchP1At text.data = some n →
      (parseImageAnalysis text).confidence_score = some ((n : ℚ) / 100))
    ∧ (searchAux matchP1At text.data = none →
       ∀ n : Nat, searchAux matchP2At text.data = some n →
        (parseImageAnalysis text).confidence_score = some ((n : ℚ) / 100))
    ∧ (searchAux matchP1At text.data = none →
       searchAux matchP2At text.data = none →
       ∀ n : Nat, searchAux matchP3At text.data = some n →
        (parseImageAnalysis text).confidence_score = some ((n : ℚ) / 100))
    ∧ (searchAux matchP1At text.data = none →
       searchAux matchP2At text.data = none →
       searchAux matchP3At text.data = none →
       ∀ n : Nat, searchAux matchP4At text.data = some n →
        (parseImageAnalysis text).confidence_score = some ((n : ℚ) / 100))
    ∧ (searchAux matchP1At text.data = none →
       searchAux matchP2At text.data = none →
       searchAux matchP3At text.data = none →
       searchAux matchP4At text.data = none →
        (parseImageAnalysis text).confidence_score = none)
    ∧ (parseImageAnalysis "confidence: 82%").confidence_score
        = some ((82 : ℚ) / 100)
    ∧ (parseImageAnalysis "90 percent confidence").confidence_score
        = some ((90 : ℚ) / 100) := by
  refine ⟨?_, ?_, ?_, ?_, ?_, ?_, ?_⟩
  · intro n h1
    simp [parseImageAnalysis, extractConfidence, confidencePatterns, h1]
  · intro h1 n h2
    simp [parseImageAnalysis, extractConfidence, confidencePatterns, h1, h2]
  · intro h1 h2 n h3
    simp [parseImageAnalysis, extractConfidence, confidencePatterns,
      h1, h2, h3]
  · intro h1 h2 h3 n h4
    simp [parseImageAnalysis, extractConfidence, confidencePatterns,
      h1, h2, h3, h4]
  · intro h1 h2 h3 h4
    simp [parseImageAnalysis, extractConfidence, confidencePatterns,
      h1, h2, h3, h4]
  · simp [parseImageAnalysis, extractConfidence, confidencePatterns,
      (by decide : searchAux matchP1At ("confidence: 82%").data = some 82)]
  · simp [parseImageAnalysis, extractConfidence, confidencePatterns,
      (by decide : searchAux matchP1At ("90 percent confidence").data = none),
      (by decide : searchAux matchP2At ("90 percent confidence").data = none),
      (by decide : searchAux matchP3At ("90 percent confidence").data = none),
      (by decide : searchAux matchP4At ("90 percent confidence").data = some 90)]

/-- Witness for C2: the first pattern matches `"confidence: 82%"` with
captured integer 82 and the score is 82/100. -/
theorem confidence_first_pattern_priority_witness :
    (parseImageAnalysis "confidence: 82%").confidence_score
      = some ((82 : ℚ) / 100) :=
  (confidence_first_pattern_priority "confidence: 82%").1 82 (by decide)

/-- C4 counterexample: the captured integer is not clamped, so the
input `"confidence: 150%"` yields a confidence score of 150/100 = 1.5,
which is outside [0, 1]. -/
theorem confidence_score_exceeds_one :
    (parseImageAnalysis "confidence: 150%").confidence_score
      = some ((150 : ℚ) / 100)
    ∧ ¬ ((150 : ℚ) / 100 ≤ 1) := by
  constructor
  · simp [parseImageAnalysis, extractConfidence, confidencePatterns,
      (by decide : searchAux matchP1At ("confidence: 150%").data = some 150)]
  · norm_num

/-- C4 amended: a successful confidence extraction yields a
nonnegative score of the form `captured / 100`; it lies in [0, 1]
exactly when the captured integer is at most 100 (the code never
clamps the captured value). -/
theorem confidence_score_shape (text : String) (q : ℚ)
    (h : (parseImageAnalysis text).confidence_score = some q) :
    0 ≤ q ∧ ∃ n : Nat, q = (n : ℚ) / 100 ∧ ((q ≤ 1) ↔ n ≤ 100) := by
  unfold parseImageAnalysis extractConfidence at h
  obtain ⟨n, _, hq⟩ := Option.map_eq_some'.mp h
  subst hq
  refine ⟨by positivity, n, rfl, ?_⟩
  rw [div_le_one (by norm_num : (0 : ℚ) < 100)]
  constructor
  · intro h2
    exact_mod_cast h2
  · intro h2
    exact_mod_cast h2

/-- Witness for C4's amended statement at `"confidence: 82%"`. -/
theorem confidence_score_shape_witness :
    0 ≤ ((82 : ℚ) / 100)
    ∧ ∃ n : Nat, (82 : ℚ) / 100 = (n : ℚ) / 100
        ∧ (((82 : ℚ) / 100 ≤ 1) ↔ n ≤ 100) :=
  confidence_score_shape "confidence: 82%" ((82 : ℚ) / 100)
    (by simp [parseImageAnalysis, extractConfidence, confidencePatterns,
      (by decide : searchAux matchP1At ("confidence: 82%").data = some 82)])

/-- C6 counterexample: the line `"1. turmeric paste on stems"` has no
action verb, is numbered, is longer than 10 characters, and contains
the remedy-indicator term `"turmeric"`, yet it is classified as an
action (the numbered branch only checks neem/organic/local), ending
up in `recommended_actions` rather than `local_remedies`. -/
theorem numbered_turmeric_misclassified :
    hasAnyWord "1. turmeric paste on stems" actionVerbs = false
    ∧ isNumbered "1. turmeric paste on stems" = true
    ∧ ("1. turmeric paste on stems" : String).length > 10
    ∧ hasAnyWord "1. turmeric paste on stems" remedyTerms = true
    ∧ classifyLine "1. turmeric paste on stems" = LineClass.action
    ∧ (parseImageAnalysis "1. turmeric paste on stems").recommended_actions
        = ["1. turmeric paste on stems"]
    ∧ (parseImageAnalysis "1. turmeric paste on stems").local_remedies
        = [] := by
  refine ⟨by decide, by decide, by decide, by decide, by decide, ?_, ?_⟩
  · decide
  · decide

/-- C6 amended: for a line with no action verb that matches the
numbered-list pattern and is longer than 10 characters, the remedy
check in this branch uses only the three terms neem/organic/local
(not the full remedy-indicator set): the line is a remedy when it
contains one of those three, and an action otherwise. -/
theorem numbered_branch_small_remedy_set (line : String)
    (h1 : hasAnyWord line actionVerbs = false)
    (h2 : isNumbered line = true)
    (h3 : line.length > 10) :
    (hasAnyWord line numberedRemedyTerms = true →
      classifyLine line = LineClass.remedy)
    ∧ (hasAnyWord line numberedRemedyTerms = false →
      classifyLine line = LineClass.action) := by
  have hne : ¬ (line = "") := by
    intro he
    rw [he] at h2
    exact absurd h2 (by decide)
  constructor
  · intro h4
    simp [classifyLine, hne, h1, h2, h3, h4]
  · intro h4
    simp [classifyLine, hne, h1, h2, h3, h4]

/-- Witness for C6's amended statement: `"1. neem oil for roots"`
(numbered, no action verb, contains neem) is a remedy, and
`"1. Remove the affected branches"` would hit the action-verb branch,
so instead `"1. turmeric paste on stems"` (no neem/organic/local) is
an action. -/
theorem numbered_branch_small_remedy_set_witness :
    classifyLine "1. neem oil for roots" = LineClass.remedy
    ∧ classifyLine "1. turmeric paste on stems" = LineClass.action :=
  ⟨(numbered_branch_small_remedy_set "1. neem oil for roots"
      (by decide) (by decide) (by decide)).1 (by decide),
   (numbered_branch_small_remedy_set "1. turmeric paste on stems"
      (by decide) (by decide) (by decide)).2 (by decide)⟩

/-- C7: the assembled context is exactly one system message (the fixed
prompt), one message per entry of the last-5 history window in
original order, and a final user message equal to the input, prefixed
with the Kannada directive exactly when the language is `"kn"`; with 7
prior turns only the last 5 appear. -/
theorem chat_context_structure (message : String)
    (history : List HistEntry) (language : String) :
    buildChatMessages message history language
      = ChatMessage.mk Role.system systemPrompt
          :: (takeLast 5 history).map histToMsg
          ++ [ChatMessage.mk Role.user
                (if language = "kn" then knDirective ++ message else message)]
    ∧ (history.length = 7 → takeLast 5 history = history.drop 2)
    ∧ (takeLast 5 history).length ≤ 5
    ∧ (language = "en" →
        (buildChatMessages message history language).getLast?
          = some (ChatMessage.mk Role.user message))
    ∧ (language = "kn" →
        (buildChatMessages message history language).getLast?
          = some (ChatMessage.mk Role.user (knDirective ++ message))) := by
  refine ⟨rfl, ?_, ?_, ?_, ?_⟩
  · intro h7
    unfold takeLast
    rw [h7]
  · simp only [takeLast, List.length_drop]
    omega
  · intro h
    subst h
    simp only [buildChatMessages]
    rw [if_neg (by decide : ¬ (("en" : String) = "kn"))]
    exact List.getLast?_concat _
  · intro h
    subst h
    simp only [buildChatMessages]
    rw [if_pos trivial]
    exact List.getLast?_concat _

/-- Witness for C7 at a 7-entry history: the window is the last 5
entries in original order, and with language `"en"` the final message
is the unprefixed input. -/
theorem chat_context_structure_witness :
    takeLast 5 [(⟨"user", "a"⟩ : HistEntry), ⟨"assistant", "b"⟩,
        ⟨"user", "c"⟩, ⟨"assistant", "d"⟩, ⟨"user", "e"⟩,
        ⟨"assistant", "f"⟩, ⟨"user", "g"⟩]
      = [⟨"user", "c"⟩, ⟨"assistant", "d"⟩, ⟨"user", "e"⟩,
         ⟨"assistant", "f"⟩, ⟨"user", "g"⟩]
    ∧ (buildChatMessages "hello"
        [⟨"user", "a"⟩, ⟨"assistant", "b"⟩, ⟨"user", "c"⟩,
         ⟨"assistant", "d"⟩, ⟨"user", "e"⟩, ⟨"assistant", "f"⟩,
         ⟨"user", "g"⟩] "en").getLast?
        = some (ChatMessage.mk Role.user "hello") :=
  ⟨(chat_context_structure "hello"
      [⟨"user", "a"⟩, ⟨"assistant", "b"⟩, ⟨"user", "c"⟩,
       ⟨"assistant", "d"⟩, ⟨"user", "e"⟩, ⟨"assistant", "f"⟩,
       ⟨"user", "g"⟩] "en").2.1 rfl,
   (chat_context_structure "hello"
      [⟨"user", "a"⟩, ⟨"assistant", "b"⟩, ⟨"user", "c"⟩,
       ⟨"assistant", "d"⟩, ⟨"user", "e"⟩, ⟨"assistant", "f"⟩,
       ⟨"user", "g"⟩] "en").2.2.2.1 rfl⟩

/-- C8 counterexample: a history entry with the malformed role
`"system"` is not passed through unchanged — the builder remaps every
non-`"user"` role to an assistant message. -/
theorem malformed_role_remapped :
    (buildChatMessages "hi" [⟨"system", "x"⟩] "en")[1]?
      = some (ChatMessage.mk Role.assistant "x")
    ∧ Role.assistant ≠ Role.system :=
  ⟨rfl, by decide⟩

/-- C8 amended: each entry of the history window is mapped to a
message with the entry's content unchanged and with role user exactly
when the entry's role is `"user"`; every other role string (including
malformed ones) is coerced to assistant.  (The caller's history list
is immutable here by construction: the builder only reads it.) -/
theorem history_roles_user_or_assistant (message : String)
    (history : List HistEntry) (language : String) (i : Nat)
    (e : HistEntry) (h : (takeLast 5 history)[i]? = some e) :
    (buildChatMessages message history language)[i + 1]?
      = some (ChatMessage.mk
          (if e.role = "user" then Role.user else Role.assistant)
          e.content) := by
  have hlt : i < (takeLast 5 history).length := getElem?_some_lt _ _ _ h
  simp only [buildChatMessages]
  rw [List.getElem?_append,
    if_pos (by simp only [List.length_cons, List.length_map]; omega)]
  rw [List.getElem?_cons_succ, List.getElem?_map, h]
  by_cases hr : e.role = "user" <;> simp [histToMsg, hr]

/-- Witness for C8's amended statement: the malformed role `"banana"`
is coerced to an assistant message with content preserved. -/
theorem history_roles_user_or_assistant_witness :
    (buildChatMessages "hi" [⟨"banana", "x"⟩] "en")[1]?
      = some (ChatMessage.mk
          (if ("banana" : String) = "user" then Role.user
           else Role.assistant) "x") :=
  history_roles_user_or_assistant "hi" [⟨"banana", "x"⟩] "en" 0
    ⟨"banana", "x"⟩ (by decide)

/-- C9: the Suggestion Heuristic is a total deterministic function:
it always returns exactly 3 suggestions, chosen by testing the four
keyword sets in fixed priority order against the lower-cased message
(first matching set wins, generic default otherwise); the message
`"My tomato leaves have yellow spots"` gets the disease suggestions. -/
theorem suggested_actions_priority (message : String) :
    (getSuggestedActions message).length = 3
    ∧ (hasAnyWord message diseaseKeywords = true →
        getSuggestedActions message = diseaseSuggestions)
    ∧ (hasAnyWord message diseaseKeywords = false →
       hasAnyWord message marketKeywords = true →
        getSuggestedActions message = marketSuggestions)
    ∧ (hasAnyWord message diseaseKeywords = false →
       hasAnyWord message marketKeywords = false →
       hasAnyWord message schemeKeywords = true →
        getSuggestedActions message = schemeSuggestions)
    ∧ (hasAnyWord message diseaseKeywords = false →
       hasAnyWord message marketKeywords = false →
       hasAnyWord message schemeKeywords = false →
       hasAnyWord message weatherKeywords = true →
        getSuggestedActions message = weatherSuggestions)
    ∧ (hasAnyWord message diseaseKeywords = false →
       hasAnyWord message marketKeywords = false →
       hasAnyWord message schemeKeywords = false →
       hasAnyWord message weatherKeywords = false →
        getSuggestedActions message = defaultSuggestions)
    ∧ getSuggestedActions "My tomato leaves have yellow spots"
        = diseaseSuggestions := by
  refine ⟨?_, ?_, ?_, ?_, ?_, ?_, ?_⟩
  · simp only [getSuggestedActions]
    split_ifs <;> rfl
  · intro h1
    simp [getSuggestedActions, h1, diseaseSuggestions]
  · intro h1 h2
    simp [getSuggestedActions, h1, h2, marketSuggestions]
  · intro h1 h2 h3
    simp [getSuggestedActions, h1, h2, h3, schemeSuggestions]
  · intro h1 h2 h3 h4
    simp [getSuggestedActions, h1, h2, h3, h4, weatherSuggestions]
  · intro h1 h2 h3 h4
    simp [getSuggestedActions, h1, h2, h3, h4, defaultSuggestions]
  · decide

/-- Witness for C9: a market message gets the market suggestions via
the second priority branch. -/
theorem suggested_actions_priority_witness :
    getSuggestedActions "The price at the mandi" = marketSuggestions :=
  (suggested_actions_priority "The price at the mandi").2.2.1
    (by decide) (by decide)

end AgriMitra
